import Mathlib

/-!
Shallow embedding of `broadcast_bot.py` (JardaMartan/broadcast_bot), a Webex
broadcast bot.  External API calls (`webex_api.*`, `json.loads`, HTTP fetches)
are modelled as explicit environment functions returning `Except Unit _`
(`.error` stands for a raised `ApiError` / exception).  Side effects that the
claims observe (which API calls were issued, how many fetch attempts were
made, which sleeps were performed) are returned as explicit traces.
-/

namespace BroadcastBot

/-- `People` object of the Webex SDK: the fields the bot reads. -/
structure Person where
  id : String
  emails : List String
  displayName : String
  orgId : String
  deriving Repr, DecidableEq

/-- `sender_info.emails[0]` / `bot_info.emails[0]` in the Python source. -/
def Person.email0 (p : Person) : String := p.emails.headD ""

/-- `Room` object: the fields the bot reads. -/
structure Room where
  id : String
  title : String
  ownerId : String
  isAnnouncementOnly : Bool
  deriving Repr, DecidableEq

/-- `config["source"]` section (see `DEFAULT_CONFIG` in the source). -/
structure SourceConfig where
  bots_own_org : Bool
  from_sender_list : Bool
  sender_list : List String
  deriving Repr, DecidableEq

/-- `config["destination"]` section. -/
structure DestinationConfig where
  bots_own_org : Bool
  senders_own_org : Bool
  deriving Repr, DecidableEq

/-- `config["membership"]` section. -/
structure MembershipConfig where
  bots_own_org : Bool
  deriving Repr, DecidableEq

/-- The bot configuration dict (as produced by `load_config`). -/
structure Config where
  source : SourceConfig
  destination : DestinationConfig
  membership : MembershipConfig
  locale : String
  deriving Repr, DecidableEq

/-- `DEFAULT_CONFIG` of the source (locale defaulted to "en_US" as in
`load_config`). -/
def DEFAULT_CONFIG : Config :=
  { source := { bots_own_org := true, from_sender_list := false, sender_list := [] }
    destination := { bots_own_org := false, senders_own_org := true }
    membership := { bots_own_org := false }
    locale := "en_US" }

/-- `check_sender(sender_info, bot_info, config)` from the source:
`result = True`; if `source.bots_own_org` then `result = sender.orgId == bot.orgId`;
if `source.from_sender_list` then `result &= sender.emails[0] in sender_list`. -/
def check_sender (sender_info bot_info : Person) (config : Config) : Bool :=
  let result := true
  let result :=
    if config.source.bots_own_org then sender_info.orgId == bot_info.orgId else result
  let result :=
    if config.source.from_sender_list then
      result && (config.source.sender_list.contains sender_info.email0)
    else result
  result

/-- `check_destination(room_id, sender_info, bot_info, config)` from the source.
`rooms_get` models `webex_api.rooms.get` (`.error` = `ApiError` raised).
Returns the boolean outcome together with the number of room fetches issued. -/
def check_destination (rooms_get : String → Except Unit Room) (room_id : String)
    (sender_info bot_info : Person) (config : Config) : Bool × Nat :=
  let result := check_sender sender_info bot_info config
  if result && (config.destination.bots_own_org || config.destination.senders_own_org) then
    match rooms_get room_id with
    | .error _ => (false, 1)
    | .ok room_info =>
      let result :=
        if config.destination.bots_own_org then room_info.ownerId == bot_info.orgId
        else result
      let result :=
        if config.destination.senders_own_org then
          result && (room_info.ownerId == sender_info.orgId)
        else result
      (result, 1)
  else (result, 0)

/-- `check_membership(room_info, bot_info, config)` from the source. -/
def check_membership (room_info : Room) (bot_info : Person) (config : Config) : Bool :=
  let result := true
  let result :=
    if config.membership.bots_own_org then room_info.ownerId == bot_info.orgId else result
  result

/-- `secure_scheme(scheme) = re.sub(r"^http$", "https", scheme)`: the anchored
regex matches exactly the string `"http"` (URL schemes, as produced by
`urlparse`, never contain a newline), so only that string is rewritten. -/
def secure_scheme (scheme : String) : String :=
  if scheme = "http" then "https" else scheme

/-- The rewritten webhook target URL built in `manage_webhooks`:
`secure_scheme(scheme) + "://" + netloc + path`. -/
def secure_url (scheme netloc path : String) : String :=
  secure_scheme scheme ++ "://" ++ netloc ++ path

/-! ### Attachment fetch loop (`create_message`, lines 377-394) -/

/-- `MAX_URL_RETRIES` from the source. -/
def MAX_URL_RETRIES : Nat := 10

/-- One GET response of the attachment URL, as read by `create_message`:
the `retry-after` header (0 when absent), the filename extracted from
`content-disposition`, the `Content-Type` header and the body bytes. -/
structure FetchResponse where
  retry_after : Nat
  file_name : String
  content_type : String
  data : String
  deriving Repr, DecidableEq

/-- The `while not url_loaded and count < MAX_URL_RETRIES` loop of
`create_message`.  `fetch n` is the response of the (n+1)-st HEAD+GET attempt.
Returns (number of attempts performed, sleeps performed in seconds,
the loaded response or `none` when the retry bound was exhausted). -/
def fetch_url_loop (fetch : Nat → FetchResponse) (count : Nat) :
    Nat × List Nat × Option FetchResponse :=
  if count < MAX_URL_RETRIES then
    let r := fetch count
    if 0 < r.retry_after then
      let rest := fetch_url_loop fetch (count + 1)
      (rest.1 + 1, r.retry_after :: rest.2.1, rest.2.2)
    else
      (1, [], some r)
  else
    (0, [], none)
termination_by MAX_URL_RETRIES - count

/-- The fetch loop started with `count = 0`, as in the source. -/
def fetch_url (fetch : Nat → FetchResponse) : Nat × List Nat × Option FetchResponse :=
  fetch_url_loop fetch 0

/-! ### Localization (`localization_strings.py`) -/

/-- One locale entry of `localization_strings.LOCALES`. -/
structure LocaleStrings where
  loc_message_from_1 : String
  loc_message_from_2 : String
  loc_space_moderated : String
  loc_outside_org : String
  deriving Repr, DecidableEq

/-- `localization_strings.CS_CZ`. -/
def CS_CZ : LocaleStrings :=
  { loc_message_from_1 := "Zpráva od <@personId:{}>:  \n\n{}"
    loc_message_from_2 := "Zpráva od {} ({}):  \n\n{}"
    loc_space_moderated := "Prostor [{}]({}) je v **režimu oznamování**, přidejte mě, prosím, mezi moderátory"
    loc_outside_org := "Mám dovoleno komunikovat pouze v Prostorech vlastněných **{}**" }

/-- `localization_strings.EN_US`. -/
def EN_US : LocaleStrings :=
  { loc_message_from_1 := "Message from <@personId:{}>:  \n\n{}"
    loc_message_from_2 := "Message from {} ({}):  \n\n{}"
    loc_space_moderated := "Space [{}]({}) is **Announcement only**, please make sure I am a moderator"
    loc_outside_org := "I am allowed to communicate only in Spaces owned by **{}**" }

/-- `localization_strings.LOCALES`: dict lookup; `none` models the `KeyError`
raised by `LOCALES[unknown]`. -/
def LOCALES (locale : String) : Option LocaleStrings :=
  if locale = "cs_CZ" then some CS_CZ
  else if locale = "en_US" then some EN_US
  else none

/-- Interleave the pieces of a template split at `\x7b\x7d` with the arguments
(helper for `pyFormat`). -/
def joinPieces : List String → List String → String
  | [], _ => ""
  | [p], _ => p
  | p :: ps, [] => p ++ joinPieces ps []
  | p :: ps, a :: as => p ++ a ++ joinPieces ps as

/-- Python `template.format(args...)` for templates whose only placeholders are
the positional `\x7b\x7d`, as in `localization_strings`. -/
def pyFormat (template : String) (args : List String) : String :=
  joinPieces (template.splitOn "{}") args

/-! ### `create_message` (lines 346-445) -/

/-- A parsed JSON document (`json.loads` result); kept abstract as the bot
only passes it through to `bc.wrap_form`. -/
structure JsonVal where
  raw : String
  deriving Repr, DecidableEq

/-- Modelled from the spec: `bc.wrap_form` lives in module `buttons_cards`,
which is not under src/.  Per the spec it wraps the parsed JSON as a platform
card attachment `\x7b contentType: adaptive-card-mime, content: <parsed JSON> \x7d`. -/
structure CardAttachment where
  contentType : String
  content : JsonVal
  deriving Repr, DecidableEq

/-- Modelled from the spec: the card-wrapping of `buttons_cards.wrap_form`. -/
def wrap_form (form : JsonVal) : CardAttachment :=
  { contentType := "application/vnd.microsoft.card.adaptive", content := form }

/-- A Webex `Message` object (also used as the result object of a
`messages.create` call). -/
structure WxMessage where
  id : String
  html : Option String
  text : Option String
  files : Option (List String)
  deriving Repr, DecidableEq

/-- The `"files"` value of the evolving `msg_data` dict: either the inbound
list of attachment URLs or the `(file_name, data, content_type)` upload tuple
set at line 424. -/
inductive FilesField where
  | urls (urls : List String)
  | upload (file_name : String) (data : String) (content_type : String)
  deriving Repr, DecidableEq

/-- The `msg_data` dict passed to the Webex messages API. -/
structure MsgData where
  roomId : Option String
  markdown : String
  files : Option FilesField
  attachments : Option (List CardAttachment)
  deriving Repr, DecidableEq

/-- The `kwargs` dict built by `handle_webhook_event` for `create_message`:
`\x7b"markdown": ..., "files": message.files\x7d`. -/
structure MsgKwargs where
  markdown : String
  files : Option (List String)
  deriving Repr, DecidableEq

/-- An API call issued by `create_message`. -/
inductive ApiOp where
  /-- `webex_api.messages.create(**payload)` -/
  | messages_create (payload : MsgData)
  /-- the multipart `messages` POST used for file uploads -/
  | messages_post_multipart (payload : MsgData)
  deriving Repr, DecidableEq

/-- Environment of `create_message`: the external calls it makes.
`.error` models a raised exception. -/
structure SendEnv where
  /-- `fetch n` is the GET response of the (n+1)-st attempt on the (single) URL. -/
  fetch : Nat → FetchResponse
  /-- `json.loads`; `none` models a raised parse error. -/
  json_loads : String → Option JsonVal
  /-- `webex_api.messages.create(**payload)` -/
  messages_create : MsgData → Except Unit WxMessage
  /-- the multipart POST of `webex_api.messages._session.post` -/
  multipart_post : MsgData → Except Unit WxMessage

/-- The `if send_as_file:` block (lines 423-436): builds the file payload and
posts it; failures are caught and leave `result` unchanged. -/
def send_as_file_block (env : SendEnv) (msg_data : MsgData) (result : Option WxMessage)
    (response : FetchResponse) : Option WxMessage × List ApiOp :=
  let payload := { msg_data with
    files := some (FilesField.upload response.file_name response.data response.content_type) }
  match env.multipart_post payload with
  | .ok m => (some m, [ApiOp.messages_post_multipart payload])
  | .error _ => (result, [ApiOp.messages_post_multipart payload])

/-- The body of `for response in responses:` (lines 398-436) for one response:
JSON content is tried as an adaptive card, any card failure falls back to the
plain file upload. -/
def process_response (env : SendEnv) (msg_data : MsgData) (result : Option WxMessage)
    (response : FetchResponse) : Option WxMessage × List ApiOp :=
  if response.content_type = "application/json" then
    match env.json_loads response.data with
    | some form =>
      let attachment_msg := { msg_data with
        attachments := some [wrap_form form]
        files := none
        markdown := "Form attached" }
      match env.messages_create attachment_msg with
      | .ok m => (some m, [ApiOp.messages_create attachment_msg])
      | .error _ =>
        let fb := send_as_file_block env msg_data result response
        (fb.1, ApiOp.messages_create attachment_msg :: fb.2)
    | none => send_as_file_block env msg_data result response
  else send_as_file_block env msg_data result response

/-- The loop over `responses` (which holds at most one element, since only
`files[:1]` is fetched), threading `result` through. -/
def process_responses (env : SendEnv) (msg_data : MsgData) :
    Option WxMessage → List FetchResponse → Option WxMessage × List ApiOp
  | result, [] => (result, [])
  | result, r :: rs =>
    let step := process_response env msg_data result r
    let rest := process_responses env msg_data step.1 rs
    (rest.1, step.2 ++ rest.2)

/-- `create_message(room_id, kwargs)` from the source, returning the `result`
value and the trace of Webex message-API calls issued. -/
def create_message (env : SendEnv) (room_id : String) (kwargs : MsgKwargs) :
    Option WxMessage × List ApiOp :=
  let files := kwargs.files
  let msg_data : MsgData :=
    { roomId := none, markdown := kwargs.markdown, files := none, attachments := none }
  match files with
  | none =>
    let payload := { msg_data with roomId := some room_id }
    match env.messages_create payload with
    | .ok m => (some m, [ApiOp.messages_create payload])
    | .error _ => (none, [ApiOp.messages_create payload])
  | some urls =>
    let responses : List FetchResponse :=
      match urls.head? with
      | none => []
      | some _ =>
        match (fetch_url env.fetch).2.2 with
        | some r => [r]
        | none => []
    let msg_data := { msg_data with roomId := some room_id }
    process_responses env msg_data none responses

/-! ### `manage_webhooks` (lines 518-589) -/

/-- A registered webhook subscription as listed by `webex_api.webhooks.list()`. -/
structure WebhookSub where
  id : String
  deriving Repr, DecidableEq

/-- A webhook-API call issued during reconciliation. -/
inductive WhOp where
  | del (id : String)
  | create (resource : String) (event : String) (targetUrl : String)
  deriving Repr, DecidableEq

/-- Environment of `manage_webhooks`. -/
structure WhEnv where
  /-- `webex_api.webhooks.list()` result -/
  webhooks_list : List WebhookSub
  /-- `webex_api.webhooks.delete`; `.error` models a raised `ApiError` -/
  webhooks_delete : String → Except Unit Unit
  /-- `webex_api.webhooks.create resource event`; `.error` models `ApiError` -/
  webhooks_create : String → String → Except Unit WebhookSub

/-- The `resource_events` dict of `manage_webhooks`. -/
def resource_events : List (String × List String) :=
  [("messages", ["created"]),
   ("memberships", ["created", "deleted", "updated"]),
   ("rooms", ["updated"])]

/-- `delete_webhook(webhook)`: issues the delete; an `ApiError` is caught and
logged, so the outcome carries no status. -/
def delete_webhook (env : WhEnv) (webhook : WebhookSub) : List WhOp :=
  let _ := env.webhooks_delete webhook.id
  [WhOp.del webhook.id]

/-- `create_webhook(resource, event, target_url)`: returns `status` (false on
`ApiError`) and the issued call. -/
def create_webhook (env : WhEnv) (resource event target_url : String) : Bool × WhOp :=
  let status :=
    match env.webhooks_create resource event with
    | .ok _ => true
    | .error _ => false
  (status, WhOp.create resource event target_url)

/-- `manage_webhooks(target_url)`: delete every listed subscription, create
the declarative set against the secured URL, succeed iff every creation
succeeded.  `scheme`/`netloc` are the `urlparse` components of `target_url`;
the path is replaced by `url_for("webex_webhook") = "/webhook"`. -/
def manage_webhooks (env : WhEnv) (scheme netloc : String) : Bool × List WhOp :=
  let target_url := secure_url scheme netloc "/webhook"
  let del_ops := (env.webhooks_list.map (delete_webhook env)).flatten
  let creations :=
    (resource_events.map (fun re =>
      re.2.map (fun event => create_webhook env re.1 event target_url))).flatten
  let result := creations.all (·.1)
  (result, del_ops ++ creations.map (·.2))

/-- Whether a modelled external call succeeded (no exception raised). -/
def isOkE {α : Type} (e : Except Unit α) : Bool :=
  match e with
  | .ok _ => true
  | .error _ => false

/-! ### Webhook event handling (`webex_webhook`, `handle_webhook_event`) -/

/-- A Webex organization (`webex_api.organizations.get` result). -/
structure Organization where
  displayName : String
  deriving Repr, DecidableEq

/-- One of the bot's memberships as yielded by `get_room_membership`
(`webex_api.memberships.list()` entries). -/
structure Membership where
  roomId : String
  roomType : String
  deriving Repr, DecidableEq

/-- The `data` object of an inbound webhook payload (the keys the handler
reads). -/
structure WebhookData where
  id : String
  personId : String
  personEmail : String
  roomId : String
  deriving Repr, DecidableEq

/-- An inbound webhook payload (the keys the handler reads). -/
structure Webhook where
  resource : String
  event : String
  actorId : String
  data : WebhookData
  deriving Repr, DecidableEq

/-- An effectful operation dispatched by `handle_webhook_event`. -/
inductive Action where
  /-- a `create_message(room_id, msg)` task enqueued during fan-out -/
  | send (roomId : String) (msg : MsgKwargs)
  /-- the 1-1 moderation request sent to the actor of an announcement-mode space -/
  | ask_moderation (personId : String)
  /-- the `loc_outside_org` notice posted into a disallowed space -/
  | notify_outside_org (roomId : String)
  /-- `webex_api.memberships.delete` (the bot removing itself) -/
  | delete_membership (membershipId : String)
  deriving Repr, DecidableEq

/-- Which kind of exception escaped a block of the handler: `apiError` is
caught by the `except ApiError` of the messages branch; `keyError` (from
`ls.LOCALES[unknown-locale]`) and `otherError` (any exception that is not an
`ApiError`: the `AttributeError` on a `None` bot identity, the
base64/regex room-UUID extraction, a non-`ApiError` exception re-raised from
an awaited `create_message` task) are not. -/
inductive HandlerErr where
  | apiError
  | keyError
  | otherError
  deriving Repr, DecidableEq

/-- Environment of the webhook handler: the loaded configuration and the
remote calls the handler makes.
`people_me` is the `webex_api.people.me()` call inside `get_bot_info()`
(`.error` = `ApiError` raised there).
`send_result` models awaiting one dispatched `create_message(room_id, msg)`
task at line 309: `.ok` its returned value (`create_message` catches its own
`ApiError`), `.error` an exception *other than* `ApiError` escaping it
(e.g. the content-disposition parse at line 400 or a transport error), which
the branch's `except ApiError` does not catch.
`room_uuid` models the `base64.b64decode` + `re.findall(...)[0]` extraction
of lines 325-326 (`.error` = an uncaught decode/`IndexError` exception for a
malformed room id).
`strip_mentions` models the
`re.sub(r"<spark-mention.*\/spark-mention>[\s]*", "", html)` text
transformation, which no claim inspects. -/
structure BotEnv where
  people_me : Except Unit Person
  config : Config
  messages_get : String → Except Unit WxMessage
  people_get : String → Except Unit Person
  rooms_get : String → Except Unit Room
  organizations_get : String → Except Unit Organization
  memberships : List Membership
  messages_create_direct : String → String → Except Unit WxMessage
  messages_create_room : String → String → Except Unit WxMessage
  memberships_delete : String → Except Unit Unit
  send_result : String → MsgKwargs → Except Unit (Option WxMessage)
  room_uuid : String → Except Unit String
  strip_mentions : String → String

/-- `get_bot_info()` from the source: catches the `ApiError` of
`people.me()` and falls through, returning `None`; the avatar defaulting is
irrelevant to the handler. -/
def get_bot_info (env : BotEnv) : Option Person :=
  match env.people_me with
  | .ok me => some me
  | .error _ => none

/-- The `try:` body of the messages branch (lines 283-310): fetch message and
sender, gate on `check_sender`, compose the two payload variants, enqueue one
`create_message` task per destination passing `check_destination` (group
rooms first, then direct ones, as in the source), and await the gather: if
any task raised an exception other than `ApiError` the gather re-raises it
(`otherError`, past the branch's `except ApiError`). -/
def messages_created_branch (env : BotEnv) (bot_info : Person) (webhook : Webhook) :
    Except HandlerErr (List Action) :=
  match env.messages_get webhook.data.id with
  | .error _ => .error HandlerErr.apiError
  | .ok message =>
    match env.people_get webhook.data.personId with
    | .error _ => .error HandlerErr.apiError
    | .ok sender_info =>
      if !check_sender sender_info bot_info env.config then .ok []
      else
        let msg_markdown :=
          match message.html with
          | some h => env.strip_mentions h
          | none => (message.text).getD ""
        match LOCALES env.config.locale with
        | none => .error HandlerErr.keyError
        | some loc =>
          let group_msg : MsgKwargs :=
            { markdown := pyFormat loc.loc_message_from_1 [sender_info.id, msg_markdown]
              files := message.files }
          let direct_msg : MsgKwargs :=
            { markdown :=
                pyFormat loc.loc_message_from_2
                  [sender_info.displayName, sender_info.email0, msg_markdown]
              files := message.files }
          let group_sends :=
            (env.memberships.filter (fun m => m.roomType == "group")).filterMap fun m =>
              if (check_destination env.rooms_get m.roomId sender_info bot_info env.config).1 then
                some (m.roomId, group_msg)
              else none
          let direct_sends :=
            (env.memberships.filter (fun m => m.roomType == "direct")).filterMap fun m =>
              if (check_destination env.rooms_get m.roomId sender_info bot_info env.config).1 then
                some (m.roomId, direct_msg)
              else none
          let send_list := group_sends ++ direct_sends
          if send_list.all (fun p => isOkE (env.send_result p.1 p.2)) then
            .ok (send_list.map (fun p => Action.send p.1 p.2))
          else
            .error HandlerErr.otherError

/-- The announcement-mode handling (lines 323-334): derive the room UUID from
the base64 room id (lines 325-326, an uncaught exception on malformed ids),
build the `webexteams://im?space=<uuid>` URL, format the `loc_space_moderated`
request and send it 1-1 to the actor (its `ApiError` is caught, line 333). -/
def announcement_ask (env : BotEnv) (webhook : Webhook) (room_info : Room) :
    Except HandlerErr (List Action) :=
  if room_info.isAnnouncementOnly then
    match env.room_uuid room_info.id with
    | .error _ => .error HandlerErr.otherError
    | .ok uuid =>
      let room_url := "webexteams://im?space=" ++ uuid
      match LOCALES env.config.locale with
      | none => .error HandlerErr.keyError
      | some loc =>
        let ask_message :=
          pyFormat loc.loc_space_moderated [room_info.title, room_url]
        let _ := env.messages_create_direct webhook.actorId ask_message
        .ok [Action.ask_moderation webhook.actorId]
  else
    .ok []

/-- The memberships branch (lines 314-344).  `webex_api.people.get(actorId)`,
`webex_api.rooms.get` and `webex_api.organizations.get` are *not* inside any
`try`, so their `ApiError` propagates; the two message sends and the
membership delete are wrapped in `try/except ApiError`.  `get_bot_info()` at
line 320 swallows its `ApiError` and yields `None`, in which case
`check_membership` (line 322) raises an uncaught `AttributeError` iff it
reads `bot_info.orgId`, i.e. iff `membership.bots_own_org` is set. -/
def memberships_branch (env : BotEnv) (webhook : Webhook) :
    Except HandlerErr (List Action) :=
  match env.people_get webhook.actorId with
  | .error _ => .error HandlerErr.apiError
  | .ok _actor_info =>
    if webhook.event == "created" then
      match env.rooms_get webhook.data.roomId with
      | .error _ => .error HandlerErr.apiError
      | .ok room_info =>
        match get_bot_info env with
        | none =>
          if env.config.membership.bots_own_org then
            .error HandlerErr.otherError
          else
            announcement_ask env webhook room_info
        | some bot_info =>
          if check_membership room_info bot_info env.config then
            announcement_ask env webhook room_info
          else
            match env.organizations_get bot_info.orgId with
            | .error _ => .error HandlerErr.apiError
            | .ok org_info =>
              match LOCALES env.config.locale with
              | none => .error HandlerErr.keyError
              | some loc =>
                let msg_markdown := pyFormat loc.loc_outside_org [org_info.displayName]
                match env.messages_create_room room_info.id msg_markdown with
                | .error _ => .ok [Action.notify_outside_org room_info.id]
                | .ok _ =>
                  let _ := env.memberships_delete webhook.data.id
                  .ok [Action.notify_outside_org room_info.id,
                       Action.delete_membership webhook.data.id]
    else
      .ok []

/-- `handle_webhook_event(webhook)` from the source.  `.error ()` means an
uncaught exception escapes the handler.  In the messages branch
`get_bot_info()` at line 279 is *outside* the `try` of line 283: when
`people.me()` raised, it returns `None` and line 280 (`bot_info.emails[0]`)
raises an uncaught `AttributeError`. -/
def handle_webhook_event (env : BotEnv) (webhook : Webhook) :
    Except Unit (List Action) :=
  if webhook.resource == "messages" && webhook.event == "created" then
    match get_bot_info env with
    | none => .error ()
    | some bot_info =>
      let bot_email := bot_info.emails.headD ""
      if webhook.data.personEmail != bot_email then
        match messages_created_branch env bot_info webhook with
        | .ok acts => .ok acts
        | .error HandlerErr.apiError => .ok []
        | .error HandlerErr.keyError => .error ()
        | .error HandlerErr.otherError => .error ()
      else
        .ok []
  else if webhook.resource == "memberships" then
    match memberships_branch env webhook with
    | .ok acts => .ok acts
    | .error _ => .error ()
  else
    .ok []

/-- The `POST /webhook` endpoint `webex_webhook`: awaits the handler and
returns the literal `"OK"`; an exception escaping the handler escapes the
endpoint (a non-success HTTP response). -/
def webex_webhook (env : BotEnv) (webhook : Webhook) : Except Unit String :=
  match handle_webhook_event env webhook with
  | .ok _ => .ok "OK"
  | .error e => .error e

/-! ### Helpers and concrete sample data -/

/-- Sample bot identity. -/
def sampleBot : Person :=
  { id := "bot-id", emails := ["bot@webex.bot"], displayName := "Bot", orgId := "org-1" }

/-- Sample sender in the bot's org and on the allow-list. -/
def sampleSender : Person :=
  { id := "alice-id", emails := ["alice@example.com"], displayName := "Alice", orgId := "org-1" }

/-- Sample sender outside the bot's org. -/
def outsideSender : Person :=
  { id := "eve-id", emails := ["eve@other.org"], displayName := "Eve", orgId := "org-2" }

/-- Sample configuration with both source restrictions enabled. -/
def cfgBoth : Config :=
  { source := { bots_own_org := true, from_sender_list := true
                sender_list := ["alice@example.com"] }
    destination := { bots_own_org := false, senders_own_org := true }
    membership := { bots_own_org := true }
    locale := "en_US" }

/-- Sample room. -/
def sampleRoom : Room :=
  { id := "room-1", title := "Room", ownerId := "org-1", isAnnouncementOnly := false }

/-- Sample handler environment in which the bot's own identity lookup
succeeds but every other remote call raises; dispatched sends complete
(returning `None`, as `create_message` does on its caught failures). -/
def failingBotEnv : BotEnv :=
  { people_me := .ok sampleBot
    config := cfgBoth
    messages_get := fun _ => .error ()
    people_get := fun _ => .error ()
    rooms_get := fun _ => .error ()
    organizations_get := fun _ => .error ()
    memberships := []
    messages_create_direct := fun _ _ => .error ()
    messages_create_room := fun _ _ => .error ()
    memberships_delete := fun _ => .error ()
    send_result := fun _ _ => .ok none
    room_uuid := fun _ => .error ()
    strip_mentions := fun s => s }

/-- A `memberships/created` webhook payload. -/
def membershipsWebhook : Webhook :=
  { resource := "memberships", event := "created", actorId := "actor-1"
    data := { id := "m-1", personId := "alice-id"
              personEmail := "alice@example.com", roomId := "room-1" } }

/-- A `messages/created` webhook payload whose sender is the bot itself. -/
def selfWebhook : Webhook :=
  { resource := "messages", event := "created", actorId := "actor-1"
    data := { id := "msg-1", personId := "bot-id"
              personEmail := "bot@webex.bot", roomId := "room-1" } }

/-- A not-ready GET response (`retry-after: 7`). -/
def busyResponse : FetchResponse :=
  { retry_after := 7, file_name := "f.txt", content_type := "text/plain", data := "d" }

/-- A ready GET response. -/
def readyResponse : FetchResponse :=
  { retry_after := 0, file_name := "f.txt", content_type := "text/plain", data := "d" }

/-- Fetch stub: not ready on the first 3 attempts, then ready. -/
def fetchBusy3 : Nat → FetchResponse :=
  fun i => if i < 3 then busyResponse else readyResponse

/-- Fetch stub: never ready. -/
def fetchAlwaysBusy : Nat → FetchResponse :=
  fun _ => busyResponse

/-- A `messages/created` webhook payload from an ordinary sender. -/
def messagesWebhook : Webhook :=
  { resource := "messages", event := "created", actorId := "actor-1"
    data := { id := "msg-1", personId := "alice-id"
              personEmail := "alice@example.com", roomId := "room-1" } }

/-- A ready JSON-attachment GET response. -/
def jsonResponse : FetchResponse :=
  { retry_after := 0, file_name := "form.json"
    content_type := "application/json", data := "{}" }

/-- A sample created-message result object. -/
def sampleWxMessage : WxMessage :=
  { id := "wx-1", html := none, text := none, files := none }

/-- Send environment whose single URL yields a well-formed JSON attachment. -/
def jsonSendEnv : SendEnv :=
  { fetch := fun _ => jsonResponse
    json_loads := fun s => if s = "{}" then some { raw := s } else none
    messages_create := fun _ => .ok sampleWxMessage
    multipart_post := fun _ => .error () }

/-- Send environment whose URL is never ready. -/
def exhaustSendEnv : SendEnv :=
  { fetch := fetchAlwaysBusy
    json_loads := fun _ => none
    messages_create := fun _ => .error ()
    multipart_post := fun _ => .error () }

/-- Three stale webhook subscriptions. -/
def staleSubs : List WebhookSub := [{ id := "w1" }, { id := "w2" }, { id := "w3" }]

/-- Webhook environment: deletions raise, the `rooms` creation raises. -/
def failRoomsEnv : WhEnv :=
  { webhooks_list := staleSubs
    webhooks_delete := fun _ => .error ()
    webhooks_create := fun resource _ =>
      if resource = "rooms" then .error () else .ok { id := "new" } }

/-- Same as `failRoomsEnv` but with succeeding deletions. -/
def okDeleteEnv : WhEnv :=
  { failRoomsEnv with webhooks_delete := fun _ => .ok () }

/-! ### Characterization of the fetch retry loop -/

lemma fetch_url_loop_unfold (fetch : Nat → FetchResponse) (count : Nat) :
    fetch_url_loop fetch count =
      if count < MAX_URL_RETRIES then
        let r := fetch count
        if 0 < r.retry_after then
          let rest := fetch_url_loop fetch (count + 1)
          (rest.1 + 1, r.retry_after :: rest.2.1, rest.2.2)
        else
          (1, [], some r)
      else
        (0, [], none) := by
  rw [fetch_url_loop]

/-- If the first attempts up to `k` are not ready and attempt `k` is ready,
the loop started at `count ≤ k` performs the remaining `k - count + 1`
attempts, sleeps each signalled interval, and succeeds with attempt `k`. -/
lemma fetch_url_loop_success (fetch : Nat → FetchResponse) (k : Nat)
    (hk : k < MAX_URL_RETRIES) (hok : (fetch k).retry_after = 0) :
    ∀ n count, count + n = k →
      (∀ i, count ≤ i → i < k → 0 < (fetch i).retry_after) →
      fetch_url_loop fetch count =
        (n + 1, (List.range' count n).map (fun i => (fetch i).retry_after),
         some (fetch k)) := by
  intro n
  induction n with
  | zero =>
    intro count hcount _hbusy
    have hck : count = k := by omega
    subst hck
    rw [fetch_url_loop_unfold]
    simp [hk, hok]
  | succ n ih =>
    intro count hcount hbusy
    have hclt : count < k := by omega
    have hcM : count < MAX_URL_RETRIES := by omega
    have hbc : 0 < (fetch count).retry_after := hbusy count le_rfl hclt
    rw [fetch_url_loop_unfold]
    simp only [hcM, if_true, hbc, if_pos]
    rw [ih (count + 1) (by omega) (fun i h1 h2 => hbusy i (by omega) h2)]
    simp [List.range'_succ]

/-- If every attempt up to the bound is not ready, the loop started at
`count ≤ MAX_URL_RETRIES` performs the remaining attempts, sleeps each
signalled interval, and exhausts. -/
lemma fetch_url_loop_exhaust (fetch : Nat → FetchResponse)
    (hbusy : ∀ i, i < MAX_URL_RETRIES → 0 < (fetch i).retry_after) :
    ∀ n count, count + n = MAX_URL_RETRIES →
      fetch_url_loop fetch count =
        (n, (List.range' count n).map (fun i => (fetch i).retry_after), none) := by
  intro n
  induction n with
  | zero =>
    intro count hcount
    rw [fetch_url_loop_unfold]
    simp [show ¬ count < MAX_URL_RETRIES by omega]
  | succ n ih =>
    intro count hcount
    have hcM : count < MAX_URL_RETRIES := by omega
    have hbc : 0 < (fetch count).retry_after := hbusy count hcM
    rw [fetch_url_loop_unfold]
    simp only [hcM, if_true, hbc, if_pos]
    rw [ih (count + 1) (by omega)]
    simp [List.range'_succ]

/-! ### Claim theorems -/

/-- C1: with both `source.bots_own_org` and `source.from_sender_list` enabled,
`check_sender` is true iff the sender's orgId equals the bot's orgId and the
sender's first email is in the configured sender list; and enabling either
restriction can only narrow permission (any way of disabling flags keeps an
allowed sender allowed). -/
theorem check_sender_both_flags_conjunctive (sender bot : Person) (cfg : Config)
    (h1 : cfg.source.bots_own_org = true) (h2 : cfg.source.from_sender_list = true) :
    (check_sender sender bot cfg = true ↔
      sender.orgId = bot.orgId ∧ sender.email0 ∈ cfg.source.sender_list) ∧
    (∀ b1 b2 : Bool,
      check_sender sender bot cfg = true →
      check_sender sender bot
        { cfg with source :=
            { cfg.source with bots_own_org := b1, from_sender_list := b2 } } = true) := by
  constructor
  · simp [check_sender, h1, h2]
  · intro b1 b2 h
    simp only [check_sender, h1, h2, if_true] at h
    rw [Bool.and_eq_true] at h
    rcases h with ⟨ho, hm⟩
    simp at hm
    cases b1 <;> cases b2 <;> simp [check_sender, ho, hm]

/-- Witness for C1 at a concrete sender, bot and config. -/
theorem check_sender_both_flags_conjunctive_witness :
    check_sender sampleSender sampleBot cfgBoth = true ∧
    check_sender sampleSender sampleBot
      { cfgBoth with source :=
          { cfgBoth.source with bots_own_org := false, from_sender_list := false } }
      = true := by
  have h := check_sender_both_flags_conjunctive sampleSender sampleBot cfgBoth rfl rfl
  have h1 : check_sender sampleSender sampleBot cfgBoth = true :=
    h.1.mpr ⟨rfl, by decide⟩
  exact ⟨h1, h.2 false false h1⟩

/-- C6: a `messages/created` event whose sender address is the bot's own
(as fetched by `get_bot_info`) is ignored: the handler dispatches no action
at all (in particular zero sends and no message fetch — the result is
`.ok []` for every environment, whatever its `messages_get`). -/
theorem handle_self_message_no_send (env : BotEnv) (webhook : Webhook)
    (bot_info : Person)
    (hr : webhook.resource = "messages") (he : webhook.event = "created")
    (hme : env.people_me = .ok bot_info)
    (hself : webhook.data.personEmail = bot_info.emails.headD "") :
    handle_webhook_event env webhook = .ok [] := by
  simp [handle_webhook_event, get_bot_info, hr, he, hme, hself]

/-- Witness for C6: the bot's own message in a concrete environment. -/
theorem handle_self_message_no_send_witness :
    handle_webhook_event failingBotEnv selfWebhook = .ok [] :=
  handle_self_message_no_send failingBotEnv selfWebhook sampleBot rfl rfl rfl (by decide)

/-- C7: whenever `check_sender` is false, `check_destination` returns false
and issues no room fetch, regardless of the destination-side flags. -/
theorem check_destination_sender_gate
    (rooms_get : String → Except Unit Room) (room_id : String)
    (sender bot : Person) (cfg : Config)
    (h : check_sender sender bot cfg = false) :
    check_destination rooms_get room_id sender bot cfg = (false, 0) := by
  simp [check_destination, h]

/-- Witness for C7: a sender outside the bot's org. -/
theorem check_destination_sender_gate_witness :
    check_destination (fun _ => .error ()) "room-1" outsideSender sampleBot cfgBoth
      = (false, 0) :=
  check_destination_sender_gate (fun _ => .error ()) "room-1" outsideSender sampleBot
    cfgBoth (by decide)

/-- C8: if the sender is allowed, a destination flag is set and fetching the
room information raises, `check_destination` fails closed: it returns false
(after the one fetch) instead of propagating the error. -/
theorem check_destination_fail_closed
    (rooms_get : String → Except Unit Room) (room_id : String)
    (sender bot : Person) (cfg : Config)
    (hs : check_sender sender bot cfg = true)
    (hflag : cfg.destination.bots_own_org = true ∨ cfg.destination.senders_own_org = true)
    (herr : rooms_get room_id = .error ()) :
    check_destination rooms_get room_id sender bot cfg = (false, 1) := by
  rcases hflag with hf | hf <;> simp [check_destination, hs, hf, herr]

/-- Witness for C8: a failing room fetch with `senders_own_org` enabled. -/
theorem check_destination_fail_closed_witness :
    check_destination (fun _ => .error ()) "room-1" sampleSender sampleBot cfgBoth
      = (false, 1) :=
  check_destination_fail_closed (fun _ => .error ()) "room-1" sampleSender sampleBot
    cfgBoth (by decide) (Or.inr rfl) rfl

/-- C9: `secure_scheme` maps exactly `"http"` to `"https"`, leaves `"https"`
unchanged and passes every other scheme through; consequently the rewritten
target URL for `http://x/y` is `https://x/y` and for `https://x/y` it is
unchanged. -/
theorem secure_scheme_rewrite :
    secure_scheme "http" = "https" ∧
    secure_scheme "https" = "https" ∧
    (∀ scheme : String, scheme ≠ "http" → secure_scheme scheme = scheme) ∧
    secure_url "http" "x" "/y" = "https://x/y" ∧
    secure_url "https" "x" "/y" = "https://x/y" := by
  refine ⟨by decide, by decide, ?_, by decide, by decide⟩
  intro scheme hs
  simp [secure_scheme, hs]

/-- Witness for C9: a non-http(s) scheme passes through. -/
theorem secure_scheme_rewrite_witness : secure_scheme "ftp" = "ftp" :=
  secure_scheme_rewrite.2.2.1 "ftp" (by decide)

/-- C3: a fetch stub not ready on the first `k < 10` attempts and ready on
attempt `k+1` makes the loop perform exactly `k+1` attempts, sleep each
signalled interval and succeed; a stub never ready makes it perform exactly
`MAX_URL_RETRIES = 10` attempts, sleep each signalled interval and report
exhaustion (`none`). -/
theorem fetch_url_retry_bound (fetch : Nat → FetchResponse) :
    (∀ k, k < MAX_URL_RETRIES →
      (∀ i, i < k → 0 < (fetch i).retry_after) →
      (fetch k).retry_after = 0 →
      fetch_url fetch =
        (k + 1, (List.range k).map (fun i => (fetch i).retry_after), some (fetch k))) ∧
    ((∀ i, i < MAX_URL_RETRIES → 0 < (fetch i).retry_after) →
      fetch_url fetch =
        (MAX_URL_RETRIES,
         (List.range MAX_URL_RETRIES).map (fun i => (fetch i).retry_after), none)) := by
  constructor
  · intro k hk hbusy hok
    have h := fetch_url_loop_success fetch k hk hok k 0 (by omega)
      (fun i _ h2 => hbusy i h2)
    unfold fetch_url
    rw [h, List.range_eq_range']
  · intro hbusy
    have h := fetch_url_loop_exhaust fetch hbusy MAX_URL_RETRIES 0 (by omega)
    unfold fetch_url
    rw [h, List.range_eq_range']

/-- Witness for C3: three busy attempts then success, and permanent busyness. -/
theorem fetch_url_retry_bound_witness :
    fetch_url fetchBusy3 = (4, [7, 7, 7], some readyResponse) ∧
    fetch_url fetchAlwaysBusy = (10, [7, 7, 7, 7, 7, 7, 7, 7, 7, 7], none) := by
  constructor
  · have h := (fetch_url_retry_bound fetchBusy3).1 3 (by decide)
      (fun i hi => by simp [fetchBusy3, hi, busyResponse])
      (by decide)
    rw [h]; decide
  · have h := (fetch_url_retry_bound fetchAlwaysBusy).2
      (fun i _ => by simp [fetchAlwaysBusy, busyResponse])
    rw [h]; decide

/-- C10: when the attachment URL is never ready, `create_message` performs the
bounded retries, issues no message-API call at all for that destination and
returns `None`. -/
theorem create_message_exhausted_no_send (env : SendEnv) (room_id : String)
    (kwargs : MsgKwargs) (url : String) (rest : List String)
    (hf : kwargs.files = some (url :: rest))
    (hbusy : ∀ i, i < MAX_URL_RETRIES → 0 < (env.fetch i).retry_after) :
    create_message env room_id kwargs = (none, []) := by
  have h := fetch_url_loop_exhaust env.fetch hbusy MAX_URL_RETRIES 0 (by omega)
  simp [create_message, hf, fetch_url, h, process_responses]

/-- Witness for C10 at a concrete environment. -/
theorem create_message_exhausted_no_send_witness :
    create_message exhaustSendEnv "room-1" { markdown := "hi", files := some ["http://u"] }
      = (none, []) :=
  create_message_exhausted_no_send exhaustSendEnv "room-1"
    { markdown := "hi", files := some ["http://u"] } "http://u" [] rfl
    (fun i _ => by simp [exhaustSendEnv, fetchAlwaysBusy, busyResponse])

/-- The messages branch can only escape with `apiError` (which the handler
catches), never with `keyError` or `otherError`, when the configured locale
is known and no dispatched send task raises past its own `ApiError` handler. -/
lemma messages_created_branch_only_apiError (env : BotEnv) (bot_info : Person)
    (webhook : Webhook)
    (hloc : (LOCALES env.config.locale).isSome = true)
    (hsend : ∀ rid m, isOkE (env.send_result rid m) = true) :
    messages_created_branch env bot_info webhook ≠ .error HandlerErr.keyError ∧
    messages_created_branch env bot_info webhook ≠ .error HandlerErr.otherError := by
  have hall : ∀ (l : List (String × MsgKwargs)),
      (l.all fun p => isOkE (env.send_result p.1 p.2)) = true := by
    intro l
    induction l with
    | nil => rfl
    | cons a t ih => simp [hsend, ih]
  unfold messages_created_branch
  cases env.messages_get webhook.data.id with
  | error e => simp
  | ok message =>
    cases env.people_get webhook.data.personId with
    | error e => simp
    | ok sender_info =>
      by_cases hc : check_sender sender_info bot_info env.config
      · cases hL : LOCALES env.config.locale with
        | none => rw [hL] at hloc; simp at hloc
        | some loc => simp [hc, hL, hall]
      · simp [hc]

/-- C2 (amended): for every `messages` event the webhook endpoint responds
with success whatever the outcome of the remote calls made inside the
branch's `try` (message fetch, sender fetch, destination room fetches — all
`ApiError` is caught), provided the bot-identity lookup of line 279 succeeds,
the configured locale is known, and no dispatched `create_message` task
raises an exception other than `ApiError`. -/
theorem webex_webhook_messages_branch_ok (env : BotEnv) (webhook : Webhook)
    (bot_info : Person)
    (hr : webhook.resource = "messages")
    (hme : env.people_me = .ok bot_info)
    (hloc : (LOCALES env.config.locale).isSome = true)
    (hsend : ∀ rid m, isOkE (env.send_result rid m) = true) :
    webex_webhook env webhook = .ok "OK" := by
  have herr := messages_created_branch_only_apiError env bot_info webhook hloc hsend
  unfold webex_webhook handle_webhook_event
  rw [hr]
  by_cases he : webhook.event = "created"
  · rw [he]
    simp only [beq_self_eq_true, Bool.and_self, if_true]
    have hbot : get_bot_info env = some bot_info := by simp [get_bot_info, hme]
    rw [hbot]
    by_cases hp : webhook.data.personEmail = bot_info.emails.headD ""
    · simp [hp]
    · have hbne : (webhook.data.personEmail != bot_info.emails.headD "") = true := by
        simpa using hp
      cases hb : messages_created_branch env bot_info webhook with
      | ok acts =>
        simp [hbne, hb]
        by_cases hc : webhook.data.personEmail = bot_info.emails.head?.getD ""
        · simp [hc]
        · simp [hc]
      | error e =>
        cases e with
        | apiError =>
          simp [hbne, hb]
        | keyError => exact absurd hb herr.1
        | otherError => exact absurd hb herr.2
  · have h1 : (("messages" == "messages") && (webhook.event == "created")) = false := by
      simpa using he
    rw [h1]
    simp

/-- Witness for C2's amended theorem: with the bot identity known, completing
sends and every other remote call raising, a `messages` event still yields
the success response. -/
theorem webex_webhook_messages_branch_ok_witness :
    webex_webhook failingBotEnv messagesWebhook = .ok "OK" :=
  webex_webhook_messages_branch_ok failingBotEnv messagesWebhook sampleBot rfl rfl
    (by decide) (fun _ _ => rfl)

/-- Counterexample for C2 as stated: a `memberships` event whose actor lookup
raises makes the endpoint propagate the failure instead of responding with
success. -/
theorem webex_webhook_membership_error_counterexample :
    webex_webhook failingBotEnv membershipsWebhook = .error () ∧
    webex_webhook failingBotEnv membershipsWebhook ≠ .ok "OK" := by
  have h : webex_webhook failingBotEnv membershipsWebhook = .error () := rfl
  refine ⟨h, ?_⟩
  rw [h]
  intro hc
  exact Except.noConfusion hc

/-- When the (single) attachment URL loads as `resp`, `create_message`
reduces to processing that one response. -/
lemma create_message_fetched (env : SendEnv) (room_id : String) (kwargs : MsgKwargs)
    (url : String) (rest : List String) (resp : FetchResponse)
    (hf : kwargs.files = some (url :: rest))
    (hresp : (fetch_url env.fetch).2.2 = some resp) :
    create_message env room_id kwargs =
      process_response env
        { roomId := some room_id, markdown := kwargs.markdown
          files := none, attachments := none }
        none resp := by
  simp [create_message, hf, hresp, process_responses]

/-- C4: for a fetched `application/json` attachment, well-formed content is
sent as a card payload whose `attachments` is set, whose `files` is removed
and whose markdown is the fixed placeholder `"Form attached"`; if parsing or
the card send fails, the original bytes are sent as a plain file attachment
exactly once (one multipart call, no second fallback), and card and file
payloads are never combined. -/
theorem create_message_json_attachment (env : SendEnv) (room_id : String)
    (kwargs : MsgKwargs) (url : String) (rest : List String) (resp : FetchResponse)
    (hf : kwargs.files = some (url :: rest))
    (hresp : (fetch_url env.fetch).2.2 = some resp)
    (hct : resp.content_type = "application/json") :
    (∀ form, env.json_loads resp.data = some form →
      (create_message env room_id kwargs).2 =
        (match env.messages_create
            { roomId := some room_id, markdown := "Form attached"
              files := none, attachments := some [wrap_form form] } with
         | .ok _ =>
           [ApiOp.messages_create
             { roomId := some room_id, markdown := "Form attached"
               files := none, attachments := some [wrap_form form] }]
         | .error _ =>
           [ApiOp.messages_create
             { roomId := some room_id, markdown := "Form attached"
               files := none, attachments := some [wrap_form form] },
            ApiOp.messages_post_multipart
             { roomId := some room_id, markdown := kwargs.markdown
               files := some (FilesField.upload resp.file_name resp.data resp.content_type)
               attachments := none }])) ∧
    (env.json_loads resp.data = none →
      (create_message env room_id kwargs).2 =
        [ApiOp.messages_post_multipart
          { roomId := some room_id, markdown := kwargs.markdown
            files := some (FilesField.upload resp.file_name resp.data resp.content_type)
            attachments := none }]) := by
  rw [create_message_fetched env room_id kwargs url rest resp hf hresp]
  constructor
  · intro form hform
    cases hmc : env.messages_create
        { roomId := some room_id, markdown := "Form attached"
          files := none, attachments := some [wrap_form form] } with
    | ok m => simp [process_response, hct, hform, hmc]
    | error e =>
      cases hmp : env.multipart_post
          { roomId := some room_id, markdown := kwargs.markdown
            files := some (FilesField.upload resp.file_name resp.data "application/json")
            attachments := none } with
      | ok m2 => simp [process_response, send_as_file_block, hct, hform, hmc, hmp]
      | error e2 => simp [process_response, send_as_file_block, hct, hform, hmc, hmp]
  · intro hform
    cases hmp : env.multipart_post
        { roomId := some room_id, markdown := kwargs.markdown
          files := some (FilesField.upload resp.file_name resp.data "application/json")
          attachments := none } with
    | ok m => simp [process_response, send_as_file_block, hct, hform, hmp]
    | error e2 => simp [process_response, send_as_file_block, hct, hform, hmp]

/-- Witness for C4: a concrete well-formed JSON attachment produces exactly
the card call with `attachments` set, no `files`, and placeholder markdown. -/
theorem create_message_json_attachment_witness :
    (create_message jsonSendEnv "room-1" { markdown := "hi", files := some ["http://u"] }).2 =
      [ApiOp.messages_create
        { roomId := some "room-1", markdown := "Form attached"
          files := none, attachments := some [wrap_form { raw := "{}" }] }] := by
  have h0 := fetch_url_loop_success jsonSendEnv.fetch 0 (by decide) rfl 0 0 (by omega)
    (fun i h1 h2 => absurd h2 (by omega))
  have hresp : (fetch_url jsonSendEnv.fetch).2.2 = some jsonResponse := by
    unfold fetch_url
    rw [h0]
    rfl
  have h := (create_message_json_attachment jsonSendEnv "room-1"
      { markdown := "hi", files := some ["http://u"] } "http://u" [] jsonResponse rfl
      hresp rfl).1 { raw := "{}" } rfl
  rw [h]
  rfl

lemma flatten_map_delete (env : WhEnv) (l : List WebhookSub) :
    (l.map (delete_webhook env)).flatten = l.map (fun w => WhOp.del w.id) := by
  induction l with
  | nil => rfl
  | cons a l ih => simp [delete_webhook, ih]

/-- C5: webhook reconciliation issues one deletion per listed subscription
followed by exactly the 5 declarative creations against the secured target
URL; it returns true iff all 5 creations succeeded; and its outcome and
issued calls are unaffected by deletion failures (no stop, no rollback). -/
theorem manage_webhooks_reconcile (env : WhEnv) (scheme netloc : String) :
    ((manage_webhooks env scheme netloc).2 =
      env.webhooks_list.map (fun w => WhOp.del w.id) ++
        [WhOp.create "messages" "created" (secure_url scheme netloc "/webhook"),
         WhOp.create "memberships" "created" (secure_url scheme netloc "/webhook"),
         WhOp.create "memberships" "deleted" (secure_url scheme netloc "/webhook"),
         WhOp.create "memberships" "updated" (secure_url scheme netloc "/webhook"),
         WhOp.create "rooms" "updated" (secure_url scheme netloc "/webhook")]) ∧
    ((manage_webhooks env scheme netloc).1 =
      (isOkE (env.webhooks_create "messages" "created") &&
       (isOkE (env.webhooks_create "memberships" "created") &&
        (isOkE (env.webhooks_create "memberships" "deleted") &&
         (isOkE (env.webhooks_create "memberships" "updated") &&
          isOkE (env.webhooks_create "rooms" "updated")))))) ∧
    (∀ env' : WhEnv, env'.webhooks_list = env.webhooks_list →
      env'.webhooks_create = env.webhooks_create →
      manage_webhooks env' scheme netloc = manage_webhooks env scheme netloc) := by
  refine ⟨?_, ?_, ?_⟩
  · simp [manage_webhooks, resource_events, create_webhook, flatten_map_delete]
  · cases h1 : env.webhooks_create "messages" "created" <;>
      cases h2 : env.webhooks_create "memberships" "created" <;>
        cases h3 : env.webhooks_create "memberships" "deleted" <;>
          cases h4 : env.webhooks_create "memberships" "updated" <;>
            cases h5 : env.webhooks_create "rooms" "updated" <;>
              simp [manage_webhooks, resource_events, create_webhook, isOkE,
                h1, h2, h3, h4, h5]
  · intro env' hlist hcreate
    simp [manage_webhooks, create_webhook, hlist, hcreate, flatten_map_delete]

/-- Witness for C5: 3 stale subscriptions, failing deletions and one failing
creation give 3 deletions, 5 creations, overall failure, and the same outcome
as with succeeding deletions. -/
theorem manage_webhooks_reconcile_witness :
    ((manage_webhooks failRoomsEnv "http" "bot.example.com").2 =
      [WhOp.del "w1", WhOp.del "w2", WhOp.del "w3",
       WhOp.create "messages" "created" "https://bot.example.com/webhook",
       WhOp.create "memberships" "created" "https://bot.example.com/webhook",
       WhOp.create "memberships" "deleted" "https://bot.example.com/webhook",
       WhOp.create "memberships" "updated" "https://bot.example.com/webhook",
       WhOp.create "rooms" "updated" "https://bot.example.com/webhook"]) ∧
    (manage_webhooks failRoomsEnv "http" "bot.example.com").1 = false ∧
    manage_webhooks okDeleteEnv "http" "bot.example.com" =
      manage_webhooks failRoomsEnv "http" "bot.example.com" := by
  have h := manage_webhooks_reconcile failRoomsEnv "http" "bot.example.com"
  refine ⟨?_, ?_, h.2.2 okDeleteEnv rfl rfl⟩
  · rw [h.1]; decide
  · rw [h.2.1]; decide

end BroadcastBot
